import Mathlib

/- Shallow embedding of the cinema_theater_backend FastAPI application
   (src/cinema_application): entity rows from models.py, request handlers from
   routers/rooms.py, routers/movies.py, routers/movie_sessions.py and
   routers/reservations.py.  SQLAlchemy DateTime values are abstracted to Int
   timestamps (only their total order is used); Python ints are Int; a commit
   that violates a schema constraint declared in models.py surfaces as an
   integrity error naming the constraint. -/

/-- One row of the rooms table (models.py Room): id, unique name, seats. -/
structure Room where
  id : Int
  name : String
  seats : Int
  deriving DecidableEq

/-- One row of the movies table (models.py Movie): id, unique name, nullable
duration, nullable poster blob (content abstracted to a string). -/
structure Movie where
  id : Int
  name : String
  duration : Option Int
  poster : Option String
  deriving DecidableEq

/-- One row of the movie_sessions table (models.py MovieSession). -/
structure MovieSession where
  id : Int
  start_time : Int
  end_time : Int
  movie_id : Int
  room_id : Int
  deriving DecidableEq

/-- One row of the reservations table (models.py Reservation); the table also
declares UniqueConstraint("session_id", "seat", name="unique_session_seat"). -/
structure Reservation where
  id : Int
  seat : Int
  contact : String
  session_id : Int
  deriving DecidableEq

/-- The relational state: the four business tables. -/
structure Db where
  rooms : List Room
  movies : List Movie
  sessions : List MovieSession
  reservations : List Reservation
  deriving DecidableEq

/-- Request-terminating failures.  notFound, referenceNotFound and
missingParameter are the typed HTTP exceptions of exceptions.py
(NotFoundException; MovieOrRoomNotFoundException and
MovieSessionNotFoundException; WrongParametersException).  integrityError
models a sqlalchemy IntegrityError raised at commit when the named schema
constraint of models.py is violated (the spec taxonomy calls the
unique_session_seat case SeatTaken and the unique-name cases DuplicateName).
attributeError models an unhandled Python AttributeError (attribute access on
None). -/
inductive ApiError where
  | notFound
  | referenceNotFound
  | missingParameter
  | integrityError (constraint : String)
  | attributeError
  deriving DecidableEq

/-- query(Room).filter(Room.id == i).first() -/
def findRoom (db : Db) (i : Int) : Option Room :=
  db.rooms.find? (fun r => r.id == i)

/-- query(Movie).filter(Movie.id == i).first() -/
def findMovie (db : Db) (i : Int) : Option Movie :=
  db.movies.find? (fun m => m.id == i)

/-- query(MovieSession).filter(MovieSession.id == i).first() -/
def findSession (db : Db) (i : Int) : Option MovieSession :=
  db.sessions.find? (fun s => s.id == i)

/-- query(Reservation).filter(Reservation.id == i).first() -/
def findReservation (db : Db) (i : Int) : Option Reservation :=
  db.reservations.find? (fun r => r.id == i)

/-- Autoincrement primary key for a fresh row. -/
def nextId (ids : List Int) : Int := ids.foldl max 0 + 1

/-- Response shape of GET sessions by id: the loaded session plus the two
computed seat lists. -/
structure SessionView where
  session : MovieSession
  reserved_seats : List Int
  available_seats : List Int
  deriving DecidableEq

/-- Python range(1, n + 1) over Int, as iterated in get_session_by_id. -/
def seatRange (n : Int) : List Int :=
  (List.range n.toNat).map (fun i : Nat => (i : Int) + 1)

/-- GET sessions by id (routers/movie_sessions.py get_session_by_id): loads
the session with its room and its reservations (rows whose session_id equals
the session's id), raises NotFoundException when the session is absent, then
computes reserved_seats as the seat values of the loaded reservations and
available_seats as range(1, room.seats + 1) minus reserved_seats.  A missing
room row would make data.room.seats a Python AttributeError. -/
def get_session_by_id (db : Db) (session_id : Int) : Except ApiError SessionView :=
  match findSession db session_id with
  | none => .error .notFound
  | some data =>
    let reserved_seats :=
      (db.reservations.filter (fun r => r.session_id == data.id)).map (fun r => r.seat)
    match findRoom db data.room_id with
    | none => .error .attributeError
    | some room =>
      let available_seats :=
        (seatRange room.seats).filter (fun s => !(reserved_seats.contains s))
      .ok { session := data, reserved_seats := reserved_seats,
            available_seats := available_seats }

/-- Python truthiness of an optional int query parameter: None and 0 are both
falsy. -/
def truthy : Option Int → Bool
  | none => false
  | some v => v != 0

/-- GET sessions filtered (routers/movie_sessions.py sessions_filtered_by):
neither parameter truthy raises WrongParametersException; both truthy filters
by movie_id AND room_id AND start_time > datetime.now(); otherwise the single
truthy parameter filters alone, with no time condition. -/
def sessions_filtered_by (db : Db) (now : Int) (movie_id room_id : Option Int) :
    Except ApiError (List MovieSession) :=
  if !truthy movie_id && !truthy room_id then .error .missingParameter
  else if truthy movie_id && truthy room_id then
    .ok (db.sessions.filter (fun s =>
      s.movie_id == movie_id.getD 0 && s.room_id == room_id.getD 0 && now < s.start_time))
  else if truthy movie_id then
    .ok (db.sessions.filter (fun s => s.movie_id == movie_id.getD 0))
  else
    .ok (db.sessions.filter (fun s => s.room_id == room_id.getD 0))

/-- Body of POST sessions (MovieSessionRequest): times already parsed by the
pydantic validator. -/
structure MovieSessionRequest where
  start_time : Int
  end_time : Int
  movie_id : Int
  room_id : Int
  deriving DecidableEq

/-- POST sessions (routers/movie_sessions.py create_session): the movie lookup
and then the room lookup run before the insert; either missing raises
MovieOrRoomNotFoundException and nothing is written. -/
def create_session (db : Db) (req : MovieSessionRequest) : Except ApiError Db :=
  if (findMovie db req.movie_id).isNone || (findRoom db req.room_id).isNone then
    .error .referenceNotFound
  else
    let row : MovieSession :=
      { id := nextId (db.sessions.map (fun s => s.id)),
        start_time := req.start_time, end_time := req.end_time,
        movie_id := req.movie_id, room_id := req.room_id }
    .ok { db with sessions := db.sessions ++ [row] }

/-- Body of POST rooms (RoomRequest). -/
structure RoomRequest where
  name : String
  seats : Int
  deriving DecidableEq

/-- POST rooms (routers/rooms.py create_room): the handler has no duplicate
check of its own; the commit enforces the unique name column of models.py
Room, raising an IntegrityError on a duplicate name. -/
def create_room (db : Db) (req : RoomRequest) : Except ApiError Db :=
  if db.rooms.any (fun r => r.name == req.name) then
    .error (.integrityError "rooms.name")
  else
    let row : Room :=
      { id := nextId (db.rooms.map (fun r => r.id)),
        name := req.name, seats := req.seats }
    .ok { db with rooms := db.rooms ++ [row] }

/-- Body of POST movies (MovieRequest). -/
structure MovieRequest where
  name : String
  duration : Option Int
  poster : Option String
  deriving DecidableEq

/-- POST movies (routers/movies.py create_movie): no duplicate check in the
handler; the commit enforces the unique name column of models.py Movie. -/
def create_movie (db : Db) (req : MovieRequest) : Except ApiError Db :=
  if db.movies.any (fun m => m.name == req.name) then
    .error (.integrityError "movies.name")
  else
    let row : Movie :=
      { id := nextId (db.movies.map (fun m => m.id)),
        name := req.name, duration := req.duration, poster := req.poster }
    .ok { db with movies := db.movies ++ [row] }

/-- Body of POST reservations (ReservationRequest). -/
structure ReservationRequest where
  seat : Int
  session_id : Int
  contact : String
  deriving DecidableEq

/-- POST reservations (routers/reservations.py create_reservation): the
handler checks only that the session exists (MovieSessionNotFoundException
otherwise); the commit enforces unique_session_seat of models.py, raising an
IntegrityError when another reservation already holds (session_id, seat). -/
def create_reservation (db : Db) (req : ReservationRequest) : Except ApiError Db :=
  if (findSession db req.session_id).isNone then
    .error .referenceNotFound
  else if db.reservations.any (fun r =>
      r.session_id == req.session_id && r.seat == req.seat) then
    .error (.integrityError "unique_session_seat")
  else
    let row : Reservation :=
      { id := nextId (db.reservations.map (fun r => r.id)),
        seat := req.seat, contact := req.contact, session_id := req.session_id }
    .ok { db with reservations := db.reservations ++ [row] }

/-- A pydantic partial-update body after model_dump(exclude_unset=True): none
is an omitted field, some none an explicitly supplied null, some (some v) a
supplied value. -/
structure ReservationUpdate where
  seat : Option (Option Int) := none
  session_id : Option (Option Int) := none
  contact : Option (Option String) := none
  deriving DecidableEq

/-- models.py Reservation.update: every supplied field whose value is not None
overwrites the attribute; supplied None values and omitted fields are
skipped. -/
def Reservation.update (r : Reservation) (p : ReservationUpdate) : Reservation :=
  { r with
    seat := match p.seat with | some (some v) => v | _ => r.seat,
    session_id := match p.session_id with | some (some v) => v | _ => r.session_id,
    contact := match p.contact with | some (some v) => v | _ => r.contact }

/-- Partial-update body of PUT sessions (MovieSessionUpdate), after
model_dump(exclude_unset=True). -/
structure MovieSessionUpdate where
  start_time : Option (Option Int) := none
  end_time : Option (Option Int) := none
  movie_id : Option (Option Int) := none
  room_id : Option (Option Int) := none
  deriving DecidableEq

/-- models.py MovieSession.update: same skip-None merge as the other
entities. -/
def MovieSession.update (s : MovieSession) (p : MovieSessionUpdate) : MovieSession :=
  { s with
    start_time := match p.start_time with | some (some v) => v | _ => s.start_time,
    end_time := match p.end_time with | some (some v) => v | _ => s.end_time,
    movie_id := match p.movie_id with | some (some v) => v | _ => s.movie_id,
    room_id := match p.room_id with | some (some v) => v | _ => s.room_id }

/-- Partial-update body of PUT movies (MovieUpdate), after
model_dump(exclude_unset=True). -/
structure MovieUpdate where
  name : Option (Option String) := none
  duration : Option (Option Int) := none
  poster : Option (Option String) := none
  deriving DecidableEq

/-- models.py Movie.update: same skip-None merge. -/
def Movie.update (m : Movie) (p : MovieUpdate) : Movie :=
  { m with
    name := match p.name with | some (some v) => v | _ => m.name,
    duration := match p.duration with | some (some v) => v | _ => m.duration,
    poster := match p.poster with | some (some v) => v | _ => m.poster }

/-- The ORM writes the loaded object back to its row at commit: the first row
matching the id is replaced by f of it, the rest are untouched. -/
def replaceFirstSession (l : List MovieSession) (i : Int)
    (f : MovieSession → MovieSession) : List MovieSession :=
  match l with
  | [] => []
  | x :: xs => if x.id == i then f x :: xs else x :: replaceFirstSession xs i f

/-- Same write-back for the reservations table. -/
def replaceFirstReservation (l : List Reservation) (i : Int)
    (f : Reservation → Reservation) : List Reservation :=
  match l with
  | [] => []
  | x :: xs => if x.id == i then f x :: xs else x :: replaceFirstReservation xs i f

/-- Same write-back for the movies table. -/
def replaceFirstMovie (l : List Movie) (i : Int)
    (f : Movie → Movie) : List Movie :=
  match l with
  | [] => []
  | x :: xs => if x.id == i then f x :: xs else x :: replaceFirstMovie xs i f

/-- Lookup for a patch value that may be an explicit null: filter(Movie.id ==
None) matches no row. -/
def findMovieByOptId (db : Db) : Option Int → Option Movie
  | none => none
  | some v => findMovie db v

/-- Lookup for a patch value that may be an explicit null: filter(Room.id ==
None) matches no row. -/
def findRoomByOptId (db : Db) : Option Int → Option Room
  | none => none
  | some v => findRoom db v

/-- PUT sessions (routers/movie_sessions.py update_session): 404 when the
session is absent; when the movie_id key is present in the patch its value
must resolve to a movie, when the room_id key is present its value must
resolve to a room (MovieOrRoomNotFoundException otherwise); then the
skip-None merge is committed. -/
def update_session (db : Db) (session_id : Int) (p : MovieSessionUpdate) :
    Except ApiError Db :=
  match findSession db session_id with
  | none => .error .notFound
  | some _ =>
    if p.movie_id.isSome && (findMovieByOptId db (p.movie_id.getD none)).isNone then
      .error .referenceNotFound
    else if p.room_id.isSome && (findRoomByOptId db (p.room_id.getD none)).isNone then
      .error .referenceNotFound
    else
      let tbl := replaceFirstSession db.sessions session_id (fun s => s.update p)
      .ok { db with sessions := tbl }

/-- PUT movies (routers/movies.py update_movie): 404 when absent, then the
skip-None merge is committed with no further checks. -/
def update_movie (db : Db) (movie_id : Int) (p : MovieUpdate) : Except ApiError Db :=
  match findMovie db movie_id with
  | none => .error .notFound
  | some _ =>
    let tbl := replaceFirstMovie db.movies movie_id (fun m => m.update p)
    .ok { db with movies := tbl }

/-- PUT reservations (routers/reservations.py update_reservation): 404 when
the reservation is absent; the session-existence check queries the
reservation's CURRENT session_id, before the patch is applied
(MovieSessionNotFoundException when that prior session is gone); the commit
of the merged row enforces unique_session_seat against every other row. -/
def update_reservation (db : Db) (reservation_id : Int) (p : ReservationUpdate) :
    Except ApiError Db :=
  match findReservation db reservation_id with
  | none => .error .notFound
  | some r =>
    if (findSession db r.session_id).isNone then
      .error .referenceNotFound
    else
      let r2 := Reservation.update r p
      if db.reservations.any (fun o =>
          o.id != r.id && o.session_id == r2.session_id && o.seat == r2.seat) then
        .error (.integrityError "unique_session_seat")
      else
        let tbl := replaceFirstReservation db.reservations reservation_id
          (fun x => Reservation.update x p)
        .ok { db with reservations := tbl }

/-- GET available rooms (routers/rooms.py rooms_with_sessions): rooms joined
to sessions on room_id with start_time > datetime.now(), distinct by room id.
A room is returned exactly when at least one session in it starts after
now. -/
def rooms_with_sessions (db : Db) (now : Int) : List Room :=
  db.rooms.filter (fun r => db.sessions.any (fun s => s.room_id == r.id && now < s.start_time))

/-- GET available movies (routers/movies.py movies_with_sessions): movies
joined to sessions on movie_id, distinct by movie id, with NO time filter. -/
def movies_with_sessions (db : Db) : List Movie :=
  db.movies.filter (fun m => db.sessions.any (fun s => s.movie_id == m.id))

/- Concrete states used to instantiate the theorems below. -/

/-- A five-seat room. -/
def exRoom : Room := { id := 1, name := "Red", seats := 5 }

/-- A movie row. -/
def exMovie : Movie := { id := 1, name := "Dune 2", duration := some 180, poster := none }

/-- A session of exMovie in exRoom. -/
def exSession : MovieSession :=
  { id := 1, start_time := 100, end_time := 200, movie_id := 1, room_id := 1 }

/-- A reservation of seat 3 in exSession. -/
def exReservation : Reservation :=
  { id := 1, seat := 3, contact := "a@b.c", session_id := 1 }

/-- A populated state: one room, one movie, one session, seat 3 reserved. -/
def exDb : Db :=
  { rooms := [exRoom], movies := [exMovie], sessions := [exSession],
    reservations := [exReservation] }

/-- A session of movie 1 in room 1 that starts at time 0, before the query
times used below. -/
def pastSession : MovieSession :=
  { id := 1, start_time := 0, end_time := 1, movie_id := 1, room_id := 1 }

/-- A state whose only session lies in the past of query time 10. -/
def pastDb : Db :=
  { rooms := [exRoom], movies := [exMovie], sessions := [pastSession],
    reservations := [] }

/-- C1: reading a session by id, when the id resolves to a session whose room
row exists, yields reserved_seats equal to the seat values of the
reservations bound to that session, and available_seats listing, in strictly
ascending order, exactly the integers from 1 to room.seats that are not
reserved. -/
theorem c1_get_session_by_id_seats (db : Db) (sid : Int) (s : MovieSession) (room : Room)
    (hs : findSession db sid = some s) (hr : findRoom db s.room_id = some room) :
    ∃ view : SessionView, get_session_by_id db sid = .ok view ∧
      view.reserved_seats =
        (db.reservations.filter (fun r => r.session_id == s.id)).map (fun r => r.seat) ∧
      (∀ a : Int, a ∈ view.available_seats ↔
        1 ≤ a ∧ a ≤ room.seats ∧ a ∉ view.reserved_seats) ∧
      List.Sorted (· < ·) view.available_seats := by
  simp only [get_session_by_id, hs, hr]
  refine ⟨_, rfl, rfl, ?_, ?_⟩
  · intro a
    rw [List.mem_filter]
    constructor
    · rintro ⟨hmem, hpred⟩
      rw [seatRange] at hmem
      simp only [List.mem_map, List.mem_range] at hmem
      obtain ⟨i, hi, rfl⟩ := hmem
      refine ⟨by omega, by omega, ?_⟩
      intro hcon
      rw [← List.elem_iff] at hcon
      simp only [List.contains, hcon, Bool.not_true] at hpred
      exact Bool.false_ne_true hpred
    · rintro ⟨h1, h2, h3⟩
      refine ⟨?_, ?_⟩
      · rw [seatRange]
        simp only [List.mem_map, List.mem_range]
        exact ⟨(a - 1).toNat, by omega, by omega⟩
      · rw [Bool.not_eq_true', ← Bool.not_eq_true]
        intro hcon
        exact h3 (List.elem_iff.mp hcon)
  · have hmap : List.Sorted (· < ·) (seatRange room.seats) := by
      rw [seatRange]
      refine List.Pairwise.map _ ?_ (List.pairwise_lt_range _)
      intro a b hab
      omega
    exact List.Sorted.filter _ hmap

/-- Witness for C1 at the populated state: session 1 in the five-seat room
with seat 3 reserved. -/
theorem c1_get_session_by_id_seats_witness :
    ∃ view : SessionView, get_session_by_id exDb 1 = .ok view ∧
      view.reserved_seats =
        (exDb.reservations.filter (fun r => r.session_id == exSession.id)).map
          (fun r => r.seat) ∧
      (∀ a : Int, a ∈ view.available_seats ↔
        1 ≤ a ∧ a ≤ exRoom.seats ∧ a ∉ view.reserved_seats) ∧
      List.Sorted (· < ·) view.available_seats :=
  c1_get_session_by_id_seats exDb 1 exSession exRoom (by decide) (by decide)

/-- C4: creating a session with a movie_id or room_id that does not resolve
fails with ReferenceNotFound (MovieOrRoomNotFoundException) and, the error
aborting the request, writes nothing; when both resolve, exactly one session
row carrying the requested fields is appended, so both lookups precede any
write. -/
theorem c4_create_session_refs (db : Db) (req : MovieSessionRequest) :
    ((findMovie db req.movie_id = none ∨ findRoom db req.room_id = none) →
      create_session db req = .error .referenceNotFound) ∧
    ((∃ m, findMovie db req.movie_id = some m) →
      (∃ r, findRoom db req.room_id = some r) →
      ∃ row : MovieSession, row.start_time = req.start_time ∧
        row.end_time = req.end_time ∧ row.movie_id = req.movie_id ∧
        row.room_id = req.room_id ∧
        create_session db req = .ok { db with sessions := db.sessions ++ [row] }) := by
  constructor
  · intro h
    unfold create_session
    rcases h with h | h <;> simp [h]
  · rintro ⟨m, hm⟩ ⟨r, hr⟩
    refine ⟨{ id := nextId (db.sessions.map (fun s => s.id)),
              start_time := req.start_time, end_time := req.end_time,
              movie_id := req.movie_id, room_id := req.room_id },
            rfl, rfl, rfl, rfl, ?_⟩
    unfold create_session
    simp [hm, hr]

/-- Witness for C4: at the populated state, movie_id 2 resolves to no movie
so the create fails, and the request with both ids 1 succeeds. -/
theorem c4_create_session_refs_witness :
    create_session exDb
      { start_time := 0, end_time := 1, movie_id := 2, room_id := 1 } =
      .error .referenceNotFound ∧
    ∃ row : MovieSession, row.start_time = 0 ∧ row.end_time = 1 ∧
      row.movie_id = 1 ∧ row.room_id = 1 ∧
      create_session exDb { start_time := 0, end_time := 1, movie_id := 1, room_id := 1 } =
        .ok { exDb with sessions := exDb.sessions ++ [row] } :=
  ⟨(c4_create_session_refs exDb
      { start_time := 0, end_time := 1, movie_id := 2, room_id := 1 }).1
      (Or.inl (by decide)),
   (c4_create_session_refs exDb
      { start_time := 0, end_time := 1, movie_id := 1, room_id := 1 }).2
      ⟨exMovie, by decide⟩ ⟨exRoom, by decide⟩⟩

/-- C6: creating a room whose name an existing room already carries, or a
movie whose name an existing movie already carries, fails with the
unique-name integrity error (the spec taxonomy's DuplicateName, raised by
the unique name column at commit) and, the error aborting the request,
inserts no row. -/
theorem c6_create_duplicate_name (db : Db) :
    (∀ req : RoomRequest, (∃ r ∈ db.rooms, r.name = req.name) →
      create_room db req = .error (.integrityError "rooms.name")) ∧
    (∀ req : MovieRequest, (∃ m ∈ db.movies, m.name = req.name) →
      create_movie db req = .error (.integrityError "movies.name")) := by
  constructor
  · intro req h
    unfold create_room
    have : db.rooms.any (fun r => r.name == req.name) = true := by
      rw [List.any_eq_true]
      obtain ⟨r, hr, hname⟩ := h
      exact ⟨r, hr, by simp [hname]⟩
    simp [this]
  · intro req h
    unfold create_movie
    have : db.movies.any (fun m => m.name == req.name) = true := by
      rw [List.any_eq_true]
      obtain ⟨m, hm, hname⟩ := h
      exact ⟨m, hm, by simp [hname]⟩
    simp [this]

/-- Witness for C6: a second "Red" room and a second "Dune 2" movie are both
rejected at the populated state. -/
theorem c6_create_duplicate_name_witness :
    create_room exDb { name := "Red", seats := 9 } =
      .error (.integrityError "rooms.name") ∧
    create_movie exDb { name := "Dune 2", duration := none, poster := none } =
      .error (.integrityError "movies.name") :=
  ⟨(c6_create_duplicate_name exDb).1 { name := "Red", seats := 9 }
      ⟨exRoom, by decide, by decide⟩,
   (c6_create_duplicate_name exDb).2 { name := "Dune 2", duration := none, poster := none }
      ⟨exMovie, by decide, by decide⟩⟩

/-- C2: when the session exists and a reservation already holds its
(session_id, seat) pair, a second create of that pair fails with the
unique_session_seat integrity error (the spec taxonomy's SeatTaken); and of
two identical create requests against a state not yet holding the pair, the
first succeeds and the second fails with that error, so exactly one of the
two succeeds in either order. -/
theorem c2_create_reservation_seat_taken (db : Db) (req : ReservationRequest) :
    ((∃ s, findSession db req.session_id = some s) →
      (∃ r ∈ db.reservations, r.session_id = req.session_id ∧ r.seat = req.seat) →
      create_reservation db req = .error (.integrityError "unique_session_seat")) ∧
    ((∃ s, findSession db req.session_id = some s) →
      (¬ ∃ r ∈ db.reservations, r.session_id = req.session_id ∧ r.seat = req.seat) →
      ∃ db2, create_reservation db req = .ok db2 ∧
        create_reservation db2 req = .error (.integrityError "unique_session_seat")) := by
  constructor
  · rintro ⟨s, hs⟩ ⟨r, hr, h1, h2⟩
    unfold create_reservation
    have hina : db.reservations.any
        (fun r => r.session_id == req.session_id && r.seat == req.seat) = true := by
      rw [List.any_eq_true]
      exact ⟨r, hr, by simp [h1, h2]⟩
    simp [hs, hina]
  · rintro ⟨s, hs⟩ hno
    have hina : db.reservations.any
        (fun r => r.session_id == req.session_id && r.seat == req.seat) = false := by
      by_contra hc
      rw [← ne_eq, Bool.ne_false_iff, List.any_eq_true] at hc
      obtain ⟨r, hr, hp⟩ := hc
      simp only [Bool.and_eq_true, beq_iff_eq] at hp
      exact hno ⟨r, hr, hp.1, hp.2⟩
    refine ⟨{ db with reservations := db.reservations ++
        [{ id := nextId (db.reservations.map (fun r => r.id)),
           seat := req.seat, contact := req.contact,
           session_id := req.session_id }] }, ?_, ?_⟩
    · unfold create_reservation
      simp [hs, hina]
    · unfold create_reservation
      have hs2 : findSession { db with reservations := db.reservations ++
          [{ id := nextId (db.reservations.map (fun r => r.id)),
             seat := req.seat, contact := req.contact, session_id := req.session_id }] }
          req.session_id = some s := hs
      have hina2 : ({ db with reservations := db.reservations ++
          [{ id := nextId (db.reservations.map (fun r => r.id)),
             seat := req.seat, contact := req.contact,
             session_id := req.session_id }] } : Db).reservations.any
          (fun r => r.session_id == req.session_id && r.seat == req.seat) = true := by
        rw [List.any_eq_true]
        exact ⟨_, List.mem_append_right _ (List.mem_singleton.mpr rfl), by simp⟩
      simp [hs2, hina2]

/-- Witness for C2 at the populated state: re-reserving seat 3 of session 1
fails at once; reserving seat 4 twice succeeds once and then fails. -/
theorem c2_create_reservation_seat_taken_witness :
    create_reservation exDb { seat := 3, session_id := 1, contact := "x" } =
      .error (.integrityError "unique_session_seat") ∧
    ∃ db2, create_reservation exDb { seat := 4, session_id := 1, contact := "x" } =
        .ok db2 ∧
      create_reservation db2 { seat := 4, session_id := 1, contact := "x" } =
        .error (.integrityError "unique_session_seat") :=
  ⟨(c2_create_reservation_seat_taken exDb
      { seat := 3, session_id := 1, contact := "x" }).1
      ⟨exSession, by decide⟩ ⟨exReservation, by decide, by decide, by decide⟩,
   (c2_create_reservation_seat_taken exDb
      { seat := 4, session_id := 1, contact := "x" }).2
      ⟨exSession, by decide⟩ (by decide)⟩

/-- C10: a session-filter parameter supplied as 0 is Python-falsy and behaves
exactly as an absent parameter: zeros alone fail with MissingParameter
(WrongParametersException), and movie_id 0 with a positive room_id is the
room-only filter. -/
theorem c10_zero_param_absent (db : Db) (now : Int) :
    (∀ room_id : Option Int,
      sessions_filtered_by db now (some 0) room_id =
        sessions_filtered_by db now none room_id) ∧
    (∀ movie_id : Option Int,
      sessions_filtered_by db now movie_id (some 0) =
        sessions_filtered_by db now movie_id none) ∧
    sessions_filtered_by db now (some 0) (some 0) = .error .missingParameter ∧
    (∀ r : Int, 0 < r →
      sessions_filtered_by db now (some 0) (some r) =
        sessions_filtered_by db now none (some r)) := by
  refine ⟨fun room_id => rfl, fun movie_id => ?_, rfl, fun r _ => rfl⟩
  unfold sessions_filtered_by
  rfl

/-- Witness for C10 at the populated state with query time 0 and room 1. -/
theorem c10_zero_param_absent_witness :
    sessions_filtered_by exDb 0 (some 0) (some 0) = .error .missingParameter ∧
    sessions_filtered_by exDb 0 (some 0) (some 1) =
      sessions_filtered_by exDb 0 none (some 1) :=
  ⟨(c10_zero_param_absent exDb 0).2.2.1,
   (c10_zero_param_absent exDb 0).2.2.2 1 (by decide)⟩

/-- Writing every row back unchanged leaves the table unchanged. -/
theorem replaceFirstSession_id_fun (l : List MovieSession) (i : Int)
    (f : MovieSession → MovieSession) (hf : ∀ x, f x = x) :
    replaceFirstSession l i f = l := by
  induction l with
  | nil => rfl
  | cons x xs ih =>
    rw [replaceFirstSession]
    by_cases h : x.id == i <;> simp [h, hf, ih]

/-- Writing every row back unchanged leaves the movies table unchanged. -/
theorem replaceFirstMovie_id_fun (l : List Movie) (i : Int)
    (f : Movie → Movie) (hf : ∀ x, f x = x) :
    replaceFirstMovie l i f = l := by
  induction l with
  | nil => rfl
  | cons x xs ih =>
    rw [replaceFirstMovie]
    by_cases h : x.id == i <;> simp [h, hf, ih]

/-- C7: the merge of models.py touches only supplied non-null fields — every
omitted field of a MovieSession or Movie patch retains its prior value, the
all-omitted patch is the identity merge — and the PUT handlers commit an
empty patch as a no-op, returning the state unchanged. -/
theorem c7_update_empty_patch_frame :
    (∀ (s : MovieSession) (p : MovieSessionUpdate),
      (p.start_time = none → (s.update p).start_time = s.start_time) ∧
      (p.end_time = none → (s.update p).end_time = s.end_time) ∧
      (p.movie_id = none → (s.update p).movie_id = s.movie_id) ∧
      (p.room_id = none → (s.update p).room_id = s.room_id) ∧
      s.update {} = s) ∧
    (∀ (m : Movie) (p : MovieUpdate),
      (p.name = none → (m.update p).name = m.name) ∧
      (p.duration = none → (m.update p).duration = m.duration) ∧
      (p.poster = none → (m.update p).poster = m.poster) ∧
      m.update {} = m) ∧
    (∀ (db : Db) (sid : Int), (findSession db sid).isSome →
      update_session db sid {} = .ok db) ∧
    (∀ (db : Db) (mid : Int), (findMovie db mid).isSome →
      update_movie db mid {} = .ok db) := by
  refine ⟨?_, ?_, ?_, ?_⟩
  · intro s p
    refine ⟨fun h => ?_, fun h => ?_, fun h => ?_, fun h => ?_, rfl⟩ <;>
      simp [MovieSession.update, h]
  · intro m p
    refine ⟨fun h => ?_, fun h => ?_, fun h => ?_, rfl⟩ <;>
      simp [Movie.update, h]
  · intro db sid h
    rw [Option.isSome_iff_exists] at h
    obtain ⟨s, hs⟩ := h
    have hrepl : replaceFirstSession db.sessions sid
        (fun s => s.update {}) = db.sessions :=
      replaceFirstSession_id_fun _ _ _ (fun x => rfl)
    unfold update_session
    simp [hs, hrepl]
  · intro db mid h
    rw [Option.isSome_iff_exists] at h
    obtain ⟨m, hm⟩ := h
    have hrepl : replaceFirstMovie db.movies mid
        (fun m => m.update {}) = db.movies :=
      replaceFirstMovie_id_fun _ _ _ (fun x => rfl)
    unfold update_movie
    simp [hm, hrepl]

/-- Witness for C7: empty-patch updates of session 1 and movie 1 of the
populated state return it unchanged, and the empty merge fixes the rows. -/
theorem c7_update_empty_patch_frame_witness :
    update_session exDb 1 {} = .ok exDb ∧
    update_movie exDb 1 {} = .ok exDb ∧
    exSession.update {} = exSession ∧
    exMovie.update {} = exMovie :=
  ⟨c7_update_empty_patch_frame.2.2.1 exDb 1 (by decide),
   c7_update_empty_patch_frame.2.2.2 exDb 1 (by decide),
   (c7_update_empty_patch_frame.1 exSession {}).2.2.2.2,
   (c7_update_empty_patch_frame.2.1 exMovie {}).2.2.2⟩

/-- C9: a field supplied as an explicit null is skipped by the merge of
models.py for every entity patch, so a set Movie.duration can never be
reset to null by a partial update. -/
theorem c9_null_fields_skipped :
    (∀ (m : Movie) (p : MovieUpdate),
      (p.name = some none → (m.update p).name = m.name) ∧
      (p.duration = some none → (m.update p).duration = m.duration) ∧
      (p.poster = some none → (m.update p).poster = m.poster)) ∧
    (∀ (r : Reservation) (p : ReservationUpdate),
      (p.seat = some none → (Reservation.update r p).seat = r.seat) ∧
      (p.session_id = some none →
        (Reservation.update r p).session_id = r.session_id) ∧
      (p.contact = some none → (Reservation.update r p).contact = r.contact)) ∧
    (∀ (s : MovieSession) (p : MovieSessionUpdate),
      (p.start_time = some none → (s.update p).start_time = s.start_time) ∧
      (p.movie_id = some none → (s.update p).movie_id = s.movie_id)) ∧
    (∀ (m : Movie) (p : MovieUpdate),
      (m.duration).isSome → ((m.update p).duration).isSome) := by
  refine ⟨?_, ?_, ?_, ?_⟩
  · intro m p
    refine ⟨fun h => ?_, fun h => ?_, fun h => ?_⟩ <;> simp [Movie.update, h]
  · intro r p
    refine ⟨fun h => ?_, fun h => ?_, fun h => ?_⟩ <;> simp [Reservation.update, h]
  · intro s p
    refine ⟨fun h => ?_, fun h => ?_⟩ <;> simp [MovieSession.update, h]
  · intro m p h
    unfold Movie.update
    rcases hd : p.duration with _ | hv
    · simpa using h
    · rcases hv with _ | v
      · simpa using h
      · simp

/-- Witness for C9: patching exMovie's set duration with an explicit null
leaves it 180, hence still set. -/
theorem c9_null_fields_skipped_witness :
    (exMovie.update { duration := some none }).duration = exMovie.duration ∧
    ((exMovie.update { duration := some none }).duration).isSome :=
  ⟨(c9_null_fields_skipped.1 exMovie { duration := some none }).2.1 rfl,
   c9_null_fields_skipped.2.2.2 exMovie { duration := some none } (by decide)⟩

/-- C3 counterexample: updating reservation 1 of the populated state from
session 1 to the non-existent session 2 does not fail with ReferenceNotFound
and does not leave the reservation unchanged — it succeeds and rebinds the
reservation, since the handler checks the pre-update session_id. -/
theorem c3_update_reservation_counterexample :
    findSession exDb 2 = none ∧
    update_reservation exDb 1 { session_id := some (some 2) } =
      .ok { exDb with reservations := [{ exReservation with session_id := 2 }] } := by
  constructor
  · decide
  · rfl

/-- C3 amended: for an existing reservation, the referential check is applied
to the reservation's PRE-update session_id — ReferenceNotFound exactly when
that prior session no longer resolves, so a patch moving the reservation to
a non-existent session succeeds at the application layer — while the
uniqueness check on the resulting (session_id, seat) pair, excluding the
reservation's own row, is enforced only by the storage unique constraint at
commit. -/
theorem c3_update_reservation_amended (db : Db) (rid : Int) (r : Reservation)
    (p : ReservationUpdate) (hr : findReservation db rid = some r) :
    (findSession db r.session_id = none →
      update_reservation db rid p = .error .referenceNotFound) ∧
    ((∃ s, findSession db r.session_id = some s) →
      ((∃ o ∈ db.reservations, o.id ≠ r.id ∧
          o.session_id = (Reservation.update r p).session_id ∧
          o.seat = (Reservation.update r p).seat) →
        update_reservation db rid p =
          .error (.integrityError "unique_session_seat")) ∧
      ((¬ ∃ o ∈ db.reservations, o.id ≠ r.id ∧
          o.session_id = (Reservation.update r p).session_id ∧
          o.seat = (Reservation.update r p).seat) →
        update_reservation db rid p =
          .ok { db with reservations := replaceFirstReservation db.reservations rid (fun x => Reservation.update x p) })) := by
  refine ⟨?_, ?_⟩
  · intro hnone
    unfold update_reservation
    simp [hr, hnone]
  · rintro ⟨s, hs⟩
    constructor
    · rintro ⟨o, ho, hne, h1, h2⟩
      unfold update_reservation
      have hany : db.reservations.any (fun o => o.id != r.id &&
          o.session_id == (Reservation.update r p).session_id &&
          o.seat == (Reservation.update r p).seat) = true := by
        rw [List.any_eq_true]
        exact ⟨o, ho, by simp [hne, h1, h2]⟩
      simp [hr, hs, hany]
    · intro hno
      unfold update_reservation
      have hany : db.reservations.any (fun o => o.id != r.id &&
          o.session_id == (Reservation.update r p).session_id &&
          o.seat == (Reservation.update r p).seat) = false := by
        by_contra hc
        rw [← ne_eq, Bool.ne_false_iff, List.any_eq_true] at hc
        obtain ⟨o, ho, hp⟩ := hc
        simp only [Bool.and_eq_true, beq_iff_eq, bne_iff_ne, ne_eq] at hp
        exact hno ⟨o, ho, hp.1.1, hp.1.2, hp.2⟩
      simp [hr, hs, hany]

/-- Witness for C3 amended: the rebinding update of the counterexample runs
through the success branch. -/
theorem c3_update_reservation_amended_witness :
    update_reservation exDb 1 { session_id := some (some 2) } =
      .ok { exDb with reservations := replaceFirstReservation exDb.reservations 1 (fun x => Reservation.update x { session_id := some (some 2) }) } :=
  ((c3_update_reservation_amended exDb 1 exReservation
      { session_id := some (some 2) } (by decide)).2
    ⟨exSession, by decide⟩).2 (by decide)

/-- C5 counterexample: at the state whose only session (movie 1, room 1)
starts before query time 10, each single-parameter filter returns that
session but supplying both parameters returns the empty list — not the
intersection of the two single-parameter results. -/
theorem c5_both_filter_counterexample :
    sessions_filtered_by pastDb 10 (some 1) none = .ok [pastSession] ∧
    sessions_filtered_by pastDb 10 none (some 1) = .ok [pastSession] ∧
    sessions_filtered_by pastDb 10 (some 1) (some 1) = .ok [] := by
  refine ⟨?_, ?_, ?_⟩ <;> rfl

/-- C5 amended: supplying neither parameter (or only falsy ones) fails with
MissingParameter; supplying both returns exactly the sessions that match
both ids AND start strictly after the query time (the single-parameter
filters carry no such time condition). -/
theorem c5_filter_both_amended (db : Db) (now : Int) :
    sessions_filtered_by db now none none = .error .missingParameter ∧
    (∀ mi ri : Int, mi ≠ 0 → ri ≠ 0 →
      ∃ l, sessions_filtered_by db now (some mi) (some ri) = .ok l ∧
        ∀ s : MovieSession, s ∈ l ↔
          s ∈ db.sessions ∧ s.movie_id = mi ∧ s.room_id = ri ∧ now < s.start_time) := by
  constructor
  · rfl
  · intro mi ri hmi hri
    have hmi2 : truthy (some mi) = true := by simp [truthy, hmi]
    have hri2 : truthy (some ri) = true := by simp [truthy, hri]
    refine ⟨db.sessions.filter (fun s => s.movie_id == mi && s.room_id == ri && decide (now < s.start_time)), ?_, ?_⟩
    · unfold sessions_filtered_by
      rw [hmi2, hri2]
      rfl
    · intro s
      rw [List.mem_filter]
      simp [and_assoc]

/-- Witness for C5 amended at the past-session state and query time 10. -/
theorem c5_filter_both_amended_witness :
    sessions_filtered_by pastDb 10 none none = .error .missingParameter ∧
    ∃ l, sessions_filtered_by pastDb 10 (some 1) (some 1) = .ok l ∧
      ∀ s : MovieSession, s ∈ l ↔
        s ∈ pastDb.sessions ∧ s.movie_id = 1 ∧ s.room_id = 1 ∧ (10 : Int) < s.start_time :=
  ⟨(c5_filter_both_amended pastDb 10).1,
   (c5_filter_both_amended pastDb 10).2 1 1 (by decide) (by decide)⟩

/-- C8 counterexample: at the state whose only session starts at time 0, the
available-movies query still returns the movie at query time 10, although no
session of that movie starts in the future of 10 — the movies query carries
no freshness filter. -/
theorem c8_available_movies_counterexample :
    movies_with_sessions pastDb = [exMovie] ∧
    (∀ s ∈ pastDb.sessions, ¬ (10 : Int) < s.start_time) := by
  constructor
  · decide
  · decide

/-- C8 amended: the available-rooms query returns exactly the rooms with at
least one session starting strictly after the query time; the
available-movies query returns exactly the movies with at least one session
of ANY start time; both are de-duplicated by entity id whenever the stored
ids are distinct. -/
theorem c8_available_entities_amended (db : Db) (now : Int) :
    (∀ r : Room, r ∈ rooms_with_sessions db now ↔
      r ∈ db.rooms ∧ ∃ s ∈ db.sessions, s.room_id = r.id ∧ now < s.start_time) ∧
    (∀ m : Movie, m ∈ movies_with_sessions db ↔
      m ∈ db.movies ∧ ∃ s ∈ db.sessions, s.movie_id = m.id) ∧
    ((db.rooms.map (fun r => r.id)).Nodup →
      ((rooms_with_sessions db now).map (fun r => r.id)).Nodup) ∧
    ((db.movies.map (fun m => m.id)).Nodup →
      ((movies_with_sessions db).map (fun m => m.id)).Nodup) := by
  refine ⟨?_, ?_, ?_, ?_⟩
  · intro r
    rw [rooms_with_sessions, List.mem_filter]
    simp [List.any_eq_true]
  · intro m
    rw [movies_with_sessions, List.mem_filter]
    simp [List.any_eq_true]
  · intro h
    exact h.sublist ((List.filter_sublist _).map _)
  · intro h
    exact h.sublist ((List.filter_sublist _).map _)

/-- Witness for C8 amended at the past-session state and query time 10. -/
theorem c8_available_entities_amended_witness :
    (exMovie ∈ movies_with_sessions pastDb ↔
      exMovie ∈ pastDb.movies ∧ ∃ s ∈ pastDb.sessions, s.movie_id = exMovie.id) ∧
    (exRoom ∈ rooms_with_sessions pastDb 10 ↔
      exRoom ∈ pastDb.rooms ∧
        ∃ s ∈ pastDb.sessions, s.room_id = exRoom.id ∧ (10 : Int) < s.start_time) ∧
    ((movies_with_sessions pastDb).map (fun m => m.id)).Nodup :=
  ⟨(c8_available_entities_amended pastDb 10).2.1 exMovie,
   (c8_available_entities_amended pastDb 10).1 exRoom,
   (c8_available_entities_amended pastDb 10).2.2.2 (by decide)⟩
